import Mathlib

/- Shallow embedding of the meilisearch-js Index client: src/indexes.ts
   together with the type declarations of src/types.ts. The HTTP transport
   and the remote server are abstracted by oracle parameters; each
   definition mirrors one source function. Requests are modelled as data
   (verb, url, body); a function that can fail client side returns Except,
   and an error value means that no request was handed to the transport. -/

namespace Meili

/-- JavaScript Date value produced by new Date(s) on an ISO-8601 string; the
model keeps the source string, which identifies the instant it denotes. -/
structure JsDate where
  fromString : String
deriving DecidableEq

/-- HTTP verbs used by the transport adapter (src/http-requests.ts). -/
inductive HttpMethod
  | get
  | post
  | put
  | patch
  | delete
deriving DecidableEq

/-- Request descriptor: verb, url and the body handed to the transport. -/
structure Req (β : Type) where
  method : HttpMethod
  url : String
  body : β
deriving DecidableEq

/-- MeiliSearchError from src/errors.ts: an error value carrying a message. -/
structure MeiliSearchError where
  message : String
deriving DecidableEq

/-- One element of an array-shaped filter, following src/types.ts where a
Filter array holds strings or arrays of strings. -/
inductive FilterEntry
  | str (s : String)
  | ors (ss : List String)
deriving DecidableEq

/-- Filter from src/types.ts: a plain string, or an array of entries. -/
inductive Filter
  | str (s : String)
  | arr (entries : List FilterEntry)
deriving DecidableEq

/-- SearchParams from src/types.ts, restricted to the fields the client
itself inspects or re-encodes plus the pagination passthrough fields;
an absent optional field is none. -/
structure SearchParams where
  q : Option String := none
  offset : Option Nat := none
  limit : Option Nat := none
  filter : Option Filter := none
  sort : Option (List String) := none
  facets : Option (List String) := none
  attributesToRetrieve : Option (List String) := none
  attributesToCrop : Option (List String) := none
  attributesToHighlight : Option (List String) := none
deriving DecidableEq

/-- SearchRequestGET from src/types.ts: the GET search query parameters,
where every array-valued search parameter has become a single string. -/
structure SearchRequestGET where
  q : Option String := none
  offset : Option Nat := none
  limit : Option Nat := none
  filter : Option String := none
  sort : Option String := none
  facets : Option String := none
  attributesToRetrieve : Option String := none
  attributesToCrop : Option String := none
  attributesToHighlight : Option String := none
deriving DecidableEq

/-- Body of the POST search request built by Index.search: the parameters
are forwarded with their native types. -/
structure SearchPostBody where
  q : Option String := none
  offset : Option Nat := none
  limit : Option Nat := none
  filter : Option Filter := none
  sort : Option (List String) := none
  facets : Option (List String) := none
  attributesToRetrieve : Option (List String) := none
  attributesToCrop : Option (List String) := none
  attributesToHighlight : Option (List String) := none
deriving DecidableEq

/-- JavaScript Array.prototype.join with separator a comma, as used by the
GET serialization paths of src/indexes.ts. -/
def joinComma (l : List String) : String :=
  String.intercalate "," l

/-- Effective q field of the body literal of Index.search, namely the object
q goes first and the spread of the options can override it; a none q in
the options leaves the query argument in place (after the removal of
undefined values by removeUndefinedFromObject). -/
def effectiveQ (query : Option String) (optQ : Option String) : Option String :=
  match optQ with
  | some s => some s
  | none => query

/-- Index.search of src/indexes.ts (lines 80 to 96): builds the POST body
removeUndefinedFromObject of the object with q and the spread options; every
field keeps its native type. The request is a POST on indexes/uid/search. -/
def Index.search (uid : String) (query : Option String) (options : SearchParams) :
    Req SearchPostBody :=
  { method := HttpMethod.post
    url := "indexes/" ++ uid ++ "/search"
    body :=
      { q := effectiveQ query options.q
        offset := options.offset
        limit := options.limit
        filter := options.filter
        sort := options.sort
        facets := options.facets
        attributesToRetrieve := options.attributesToRetrieve
        attributesToCrop := options.attributesToCrop
        attributesToHighlight := options.attributesToHighlight } }

/-- The parseFilter closure of Index.searchGet (src/indexes.ts lines 116 to
123): a string filter passes through, an array-shaped filter throws a
MeiliSearchError, an absent filter yields undefined. -/
def parseFilter : Option Filter → Except MeiliSearchError (Option String)
  | some (Filter.str s) => Except.ok (some s)
  | some (Filter.arr _) =>
      Except.error
        ⟨"The filter query parameter should be in string format when using searchGet"⟩
  | none => Except.ok none

/-- Index.searchGet of src/indexes.ts (lines 106 to 141): builds the GET
query parameter object; parseFilter runs while the object is built, so an
exception there means no request reaches the transport (modelled by the
error branch of Except). Array-valued parameters are joined with commas. -/
def Index.searchGet (uid : String) (query : Option String) (options : SearchParams) :
    Except MeiliSearchError (Req SearchRequestGET) :=
  match parseFilter options.filter with
  | Except.error e => Except.error e
  | Except.ok filter => Except.ok
    { method := HttpMethod.get
      url := "indexes/" ++ uid ++ "/search"
      body :=
        { q := effectiveQ query options.q
          offset := options.offset
          limit := options.limit
          filter := filter
          sort := options.sort.map joinComma
          facets := options.facets.map joinComma
          attributesToRetrieve := options.attributesToRetrieve.map joinComma
          attributesToCrop := options.attributesToCrop.map joinComma
          attributesToHighlight := options.attributesToHighlight.map joinComma } }

/-- Fields from src/types.ts: an array of field names or a single name. -/
inductive Fields
  | arr (l : List String)
  | str (s : String)
deriving DecidableEq

/-- DocumentsQuery from src/types.ts: pagination plus an optional fields
selector. -/
structure DocumentsQuery where
  offset : Option Nat := none
  limit : Option Nat := none
  fields : Option Fields := none
deriving DecidableEq

/-- DocumentQuery from src/types.ts: an optional fields selector. -/
structure DocumentQuery where
  fields : Option Fields := none
deriving DecidableEq

/-- Query parameters of the GET documents request after serialization. -/
structure DocumentsRequestGET where
  offset : Option Nat := none
  limit : Option Nat := none
  fields : Option String := none
deriving DecidableEq

/-- The fields serialization shared by Index.getDocuments and
Index.getDocument: an array is joined with commas, anything else becomes
undefined and is then dropped by removeUndefinedFromObject. -/
def serializeFields : Option Fields → Option String
  | some (Fields.arr l) => some (joinComma l)
  | some (Fields.str _) => none
  | none => none

/-- Index.getDocuments of src/indexes.ts (lines 310 to 329): a GET on
indexes/uid/documents whose query parameters spread the input with the
fields entry replaced by its comma-joined form. -/
def Index.getDocuments (uid : String) (parameters : DocumentsQuery) :
    Req DocumentsRequestGET :=
  { method := HttpMethod.get
    url := "indexes/" ++ uid ++ "/documents"
    body :=
      { offset := parameters.offset
        limit := parameters.limit
        fields := serializeFields parameters.fields } }

/-- Index.getDocument of src/indexes.ts (lines 338 to 358): a GET on
indexes/uid/documents/documentId with the same fields serialization; the
parameters object is optional. -/
def Index.getDocument (uid : String) (documentId : String)
    (parameters : Option DocumentQuery) : Req DocumentsRequestGET :=
  { method := HttpMethod.get
    url := "indexes/" ++ uid ++ "/documents/" ++ documentId
    body :=
      { offset := none
        limit := none
        fields := serializeFields (match parameters with
          | some p => p.fields
          | none => none) } }

/-- Raw task descriptor as decoded from the JSON response of a mutating
call (EnqueuedTaskObject of src/types.ts): enqueuedAt is an ISO-8601
string. -/
structure RawEnqueuedTask where
  taskUid : Nat
  indexUid : Option String := none
  status : String := "enqueued"
  type : String := ""
  enqueuedAt : String := ""
deriving DecidableEq

/-- A date-valued response field as exposed to the caller: either parsed
into a native Date or still the raw ISO-8601 string. -/
inductive DateOrString
  | date (d : JsDate)
  | str (s : String)
deriving DecidableEq

/-- The task value an Index mutating method hands back to its caller. The
enqueued field records the stray property written by an assignment to
task.enqueued, absent everywhere an assignment to task.enqueuedAt is used. -/
structure EnqueuedTaskResult where
  taskUid : Nat
  enqueuedAt : DateOrString
  enqueued : Option JsDate := none
deriving DecidableEq

/-- Modelled from the spec: the EnqueuedTask wrapper class of
src/enqueued-task.ts is not in the repository snapshot. Per spec sections 2
and 6 it is a value object carrying the task identifier and the enqueue
timestamp, and every date-valued response field is parsed into the native
Date representation before being exposed. -/
def EnqueuedTask.ofRaw (task : RawEnqueuedTask) : EnqueuedTaskResult :=
  { taskUid := task.taskUid
    enqueuedAt := DateOrString.date ⟨task.enqueuedAt⟩ }

/-- The return pattern task.enqueuedAt = new Date(task.enqueuedAt) followed
by return task, shared by the methods that mutate the decoded task
in place instead of constructing an EnqueuedTask. -/
def parseEnqueuedAt (task : RawEnqueuedTask) : EnqueuedTaskResult :=
  { taskUid := task.taskUid
    enqueuedAt := DateOrString.date ⟨task.enqueuedAt⟩ }

/-- Settings path of an index: indexes/uid/settings plus a sub-resource. -/
def settingsUrl (uid : String) (sub : String) : String :=
  "indexes/" ++ uid ++ "/settings" ++ sub

/-- StopWords from src/types.ts: string array or null. -/
abbrev StopWords := Option (List String)

/-- RankingRules from src/types.ts: string array or null. -/
abbrev RankingRules := Option (List String)

/-- Synonyms from src/types.ts: a map from word to word list, or null;
the map is modelled as an association list. -/
abbrev Synonyms := Option (List (String × List String))

/-- FilterableAttributes from src/types.ts: string array or null. -/
abbrev FilterableAttributes := Option (List String)

/-- SortableAttributes from src/types.ts: string array or null. -/
abbrev SortableAttributes := Option (List String)

/-- SearchableAttributes from src/types.ts: string array or null. -/
abbrev SearchableAttributes := Option (List String)

/-- DisplayedAttributes from src/types.ts: string array or null. -/
abbrev DisplayedAttributes := Option (List String)

/-- Index.update (src/indexes.ts lines 207 to 214): PATCH on indexes/uid,
then the enqueuedAt field of the decoded task is parsed in place. -/
def Index.update (uid : String) (data : δ) (task : RawEnqueuedTask) :
    Req δ × EnqueuedTaskResult :=
  (⟨HttpMethod.patch, "indexes/" ++ uid, data⟩, parseEnqueuedAt task)

/-- Index.delete (src/indexes.ts lines 221 to 226): DELETE on indexes/uid,
response wrapped by new EnqueuedTask. -/
def Index.delete (uid : String) (task : RawEnqueuedTask) :
    Req Unit × EnqueuedTaskResult :=
  (⟨HttpMethod.delete, "indexes/" ++ uid, ()⟩, EnqueuedTask.ofRaw task)

/-- Index.addDocuments (src/indexes.ts lines 367 to 375): POST of the
document array on indexes/uid/documents, wrapped by new EnqueuedTask. -/
def Index.addDocuments (uid : String) (documents : List δ) (task : RawEnqueuedTask) :
    Req (List δ) × EnqueuedTaskResult :=
  (⟨HttpMethod.post, "indexes/" ++ uid ++ "/documents", documents⟩,
    EnqueuedTask.ofRaw task)

/-- Index.updateDocuments (src/indexes.ts lines 432 to 440): PUT of the
document array on indexes/uid/documents, wrapped by new EnqueuedTask. -/
def Index.updateDocuments (uid : String) (documents : List δ) (task : RawEnqueuedTask) :
    Req (List δ) × EnqueuedTaskResult :=
  (⟨HttpMethod.put, "indexes/" ++ uid ++ "/documents", documents⟩,
    EnqueuedTask.ofRaw task)

/-- Index.deleteDocument (src/indexes.ts lines 496 to 503): DELETE on
indexes/uid/documents/documentId, then enqueuedAt parsed in place. -/
def Index.deleteDocument (uid : String) (documentId : String) (task : RawEnqueuedTask) :
    Req Unit × EnqueuedTaskResult :=
  (⟨HttpMethod.delete, "indexes/" ++ uid ++ "/documents/" ++ documentId, ()⟩,
    parseEnqueuedAt task)

/-- Index.deleteDocuments (src/indexes.ts lines 511 to 519): POST of the id
array on indexes/uid/documents/delete-batch, wrapped by new EnqueuedTask. -/
def Index.deleteDocuments (uid : String) (documentsIds : List String)
    (task : RawEnqueuedTask) : Req (List String) × EnqueuedTaskResult :=
  (⟨HttpMethod.post, "indexes/" ++ uid ++ "/documents/delete-batch", documentsIds⟩,
    EnqueuedTask.ofRaw task)

/-- Index.deleteAllDocuments (src/indexes.ts lines 526 to 533): DELETE on
indexes/uid/documents, then enqueuedAt parsed in place. -/
def Index.deleteAllDocuments (uid : String) (task : RawEnqueuedTask) :
    Req Unit × EnqueuedTaskResult :=
  (⟨HttpMethod.delete, "indexes/" ++ uid ++ "/documents", ()⟩, parseEnqueuedAt task)

/-- Index.updateSettings (src/indexes.ts lines 555 to 562): PATCH on
indexes/uid/settings; the source then assigns the parsed date to
task.enqueued, not to task.enqueuedAt, so the enqueuedAt field handed back
is still the raw string. -/
def Index.updateSettings (uid : String) (settings : δ) (task : RawEnqueuedTask) :
    Req δ × EnqueuedTaskResult :=
  (⟨HttpMethod.patch, settingsUrl uid "", settings⟩,
    { taskUid := task.taskUid
      enqueuedAt := DateOrString.str task.enqueuedAt
      enqueued := some ⟨task.enqueuedAt⟩ })

/-- Index.resetSettings (src/indexes.ts lines 569 to 576): DELETE on
indexes/uid/settings, then enqueuedAt parsed in place. -/
def Index.resetSettings (uid : String) (task : RawEnqueuedTask) :
    Req Unit × EnqueuedTaskResult :=
  (⟨HttpMethod.delete, settingsUrl uid "", ()⟩, parseEnqueuedAt task)

/-- Index.updatePagination (src/indexes.ts lines 598 to 605): PATCH on the
pagination sub-resource, wrapped by new EnqueuedTask. -/
def Index.updatePagination (uid : String) (pagination : δ) (task : RawEnqueuedTask) :
    Req δ × EnqueuedTaskResult :=
  (⟨HttpMethod.patch, settingsUrl uid "/pagination", pagination⟩,
    EnqueuedTask.ofRaw task)

/-- Index.resetPagination (src/indexes.ts lines 612 to 617): DELETE on the
pagination sub-resource, wrapped by new EnqueuedTask. -/
def Index.resetPagination (uid : String) (task : RawEnqueuedTask) :
    Req Unit × EnqueuedTaskResult :=
  (⟨HttpMethod.delete, settingsUrl uid "/pagination", ()⟩, EnqueuedTask.ofRaw task)

/-- Index.updateSynonyms (src/indexes.ts lines 639 to 644): PUT of the whole
synonyms value on the synonyms sub-resource, wrapped by new EnqueuedTask. -/
def Index.updateSynonyms (uid : String) (synonyms : Synonyms) (task : RawEnqueuedTask) :
    Req Synonyms × EnqueuedTaskResult :=
  (⟨HttpMethod.put, settingsUrl uid "/synonyms", synonyms⟩, EnqueuedTask.ofRaw task)

/-- Index.resetSynonyms (src/indexes.ts lines 651 to 658): DELETE on the
synonyms sub-resource, then enqueuedAt parsed in place. -/
def Index.resetSynonyms (uid : String) (task : RawEnqueuedTask) :
    Req Unit × EnqueuedTaskResult :=
  (⟨HttpMethod.delete, settingsUrl uid "/synonyms", ()⟩, parseEnqueuedAt task)

/-- Index.updateStopWords (src/indexes.ts lines 680 to 685): PUT of the
whole stop-word list on the stop-words sub-resource, wrapped by new
EnqueuedTask. -/
def Index.updateStopWords (uid : String) (stopWords : StopWords) (task : RawEnqueuedTask) :
    Req StopWords × EnqueuedTaskResult :=
  (⟨HttpMethod.put, settingsUrl uid "/stop-words", stopWords⟩, EnqueuedTask.ofRaw task)

/-- Index.resetStopWords (src/indexes.ts lines 692 to 699): DELETE on the
stop-words sub-resource, then enqueuedAt parsed in place. -/
def Index.resetStopWords (uid : String) (task : RawEnqueuedTask) :
    Req Unit × EnqueuedTaskResult :=
  (⟨HttpMethod.delete, settingsUrl uid "/stop-words", ()⟩, parseEnqueuedAt task)

/-- Index.updateRankingRules (src/indexes.ts lines 722 to 727): PUT of the
whole rule list on the ranking-rules sub-resource, wrapped by new
EnqueuedTask. -/
def Index.updateRankingRules (uid : String) (rankingRules : RankingRules)
    (task : RawEnqueuedTask) : Req RankingRules × EnqueuedTaskResult :=
  (⟨HttpMethod.put, settingsUrl uid "/ranking-rules", rankingRules⟩,
    EnqueuedTask.ofRaw task)

/-- Index.resetRankingRules (src/indexes.ts lines 734 to 741): DELETE on the
ranking-rules sub-resource, then enqueuedAt parsed in place. -/
def Index.resetRankingRules (uid : String) (task : RawEnqueuedTask) :
    Req Unit × EnqueuedTaskResult :=
  (⟨HttpMethod.delete, settingsUrl uid "/ranking-rules", ()⟩, parseEnqueuedAt task)

/-- Index.updateDistinctAttribute (src/indexes.ts lines 763 to 770): PUT on
the distinct-attribute sub-resource, wrapped by new EnqueuedTask. -/
def Index.updateDistinctAttribute (uid : String) (distinctAttribute : Option String)
    (task : RawEnqueuedTask) : Req (Option String) × EnqueuedTaskResult :=
  (⟨HttpMethod.put, settingsUrl uid "/distinct-attribute", distinctAttribute⟩,
    EnqueuedTask.ofRaw task)

/-- Index.resetDistinctAttribute (src/indexes.ts lines 777 to 784): DELETE
on the distinct-attribute sub-resource, then enqueuedAt parsed in place. -/
def Index.resetDistinctAttribute (uid : String) (task : RawEnqueuedTask) :
    Req Unit × EnqueuedTaskResult :=
  (⟨HttpMethod.delete, settingsUrl uid "/distinct-attribute", ()⟩, parseEnqueuedAt task)

/-- Index.updateFilterableAttributes (src/indexes.ts lines 807 to 814): PUT
of the whole attribute list on the filterable-attributes sub-resource,
wrapped by new EnqueuedTask. -/
def Index.updateFilterableAttributes (uid : String)
    (filterableAttributes : FilterableAttributes) (task : RawEnqueuedTask) :
    Req FilterableAttributes × EnqueuedTaskResult :=
  (⟨HttpMethod.put, settingsUrl uid "/filterable-attributes", filterableAttributes⟩,
    EnqueuedTask.ofRaw task)

/-- Index.resetFilterableAttributes (src/indexes.ts lines 821 to 828):
DELETE on the filterable-attributes sub-resource, then enqueuedAt parsed in
place. -/
def Index.resetFilterableAttributes (uid : String) (task : RawEnqueuedTask) :
    Req Unit × EnqueuedTaskResult :=
  (⟨HttpMethod.delete, settingsUrl uid "/filterable-attributes", ()⟩,
    parseEnqueuedAt task)

/-- Index.updateSortableAttributes (src/indexes.ts lines 851 to 858): PUT of
the whole attribute list on the sortable-attributes sub-resource, wrapped
by new EnqueuedTask. -/
def Index.updateSortableAttributes (uid : String)
    (sortableAttributes : SortableAttributes) (task : RawEnqueuedTask) :
    Req SortableAttributes × EnqueuedTaskResult :=
  (⟨HttpMethod.put, settingsUrl uid "/sortable-attributes", sortableAttributes⟩,
    EnqueuedTask.ofRaw task)

/-- Index.resetSortableAttributes (src/indexes.ts lines 865 to 872): DELETE
on the sortable-attributes sub-resource, then enqueuedAt parsed in place. -/
def Index.resetSortableAttributes (uid : String) (task : RawEnqueuedTask) :
    Req Unit × EnqueuedTaskResult :=
  (⟨HttpMethod.delete, settingsUrl uid "/sortable-attributes", ()⟩,
    parseEnqueuedAt task)

/-- Index.updateSearchableAttributes (src/indexes.ts lines 895 to 902): PUT
of the whole attribute list on the searchable-attributes sub-resource,
wrapped by new EnqueuedTask. -/
def Index.updateSearchableAttributes (uid : String)
    (searchableAttributes : SearchableAttributes) (task : RawEnqueuedTask) :
    Req SearchableAttributes × EnqueuedTaskResult :=
  (⟨HttpMethod.put, settingsUrl uid "/searchable-attributes", searchableAttributes⟩,
    EnqueuedTask.ofRaw task)

/-- Index.resetSearchableAttributes (src/indexes.ts lines 909 to 916):
DELETE on the searchable-attributes sub-resource, then enqueuedAt parsed in
place. -/
def Index.resetSearchableAttributes (uid : String) (task : RawEnqueuedTask) :
    Req Unit × EnqueuedTaskResult :=
  (⟨HttpMethod.delete, settingsUrl uid "/searchable-attributes", ()⟩,
    parseEnqueuedAt task)

/-- Index.updateDisplayedAttributes (src/indexes.ts lines 939 to 946): PUT
of the whole attribute list on the displayed-attributes sub-resource,
wrapped by new EnqueuedTask. -/
def Index.updateDisplayedAttributes (uid : String)
    (displayedAttributes : DisplayedAttributes) (task : RawEnqueuedTask) :
    Req DisplayedAttributes × EnqueuedTaskResult :=
  (⟨HttpMethod.put, settingsUrl uid "/displayed-attributes", displayedAttributes⟩,
    EnqueuedTask.ofRaw task)

/-- Index.resetDisplayedAttributes (src/indexes.ts lines 953 to 960): DELETE
on the displayed-attributes sub-resource, then enqueuedAt parsed in place. -/
def Index.resetDisplayedAttributes (uid : String) (task : RawEnqueuedTask) :
    Req Unit × EnqueuedTaskResult :=
  (⟨HttpMethod.delete, settingsUrl uid "/displayed-attributes", ()⟩,
    parseEnqueuedAt task)

/-- Index.updateTypoTolerance (src/indexes.ts lines 983 to 992): PATCH on
the typo-tolerance sub-resource, then enqueuedAt parsed in place. -/
def Index.updateTypoTolerance (uid : String) (typoTolerance : δ)
    (task : RawEnqueuedTask) : Req δ × EnqueuedTaskResult :=
  (⟨HttpMethod.patch, settingsUrl uid "/typo-tolerance", typoTolerance⟩,
    parseEnqueuedAt task)

/-- Index.resetTypoTolerance (src/indexes.ts lines 999 to 1006): DELETE on
the typo-tolerance sub-resource, then enqueuedAt parsed in place. -/
def Index.resetTypoTolerance (uid : String) (task : RawEnqueuedTask) :
    Req Unit × EnqueuedTaskResult :=
  (⟨HttpMethod.delete, settingsUrl uid "/typo-tolerance", ()⟩, parseEnqueuedAt task)

/-- Index.updateFaceting (src/indexes.ts lines 1028 to 1033): PATCH on the
faceting sub-resource, wrapped by new EnqueuedTask. -/
def Index.updateFaceting (uid : String) (faceting : δ) (task : RawEnqueuedTask) :
    Req δ × EnqueuedTaskResult :=
  (⟨HttpMethod.patch, settingsUrl uid "/faceting", faceting⟩, EnqueuedTask.ofRaw task)

/-- Index.resetFaceting (src/indexes.ts lines 1040 to 1045): DELETE on the
faceting sub-resource, wrapped by new EnqueuedTask. -/
def Index.resetFaceting (uid : String) (task : RawEnqueuedTask) :
    Req Unit × EnqueuedTaskResult :=
  (⟨HttpMethod.delete, settingsUrl uid "/faceting", ()⟩, EnqueuedTask.ofRaw task)

/-- Index.create (src/indexes.ts lines 189 to 199): POST on indexes with
the options and the uid, wrapped by new EnqueuedTask. -/
def Index.create (uid : String) (options : δ) (task : RawEnqueuedTask) :
    Req (δ × String) × EnqueuedTaskResult :=
  (⟨HttpMethod.post, "indexes", (options, uid)⟩, EnqueuedTask.ofRaw task)

/-- Index.addDocumentsFromString (src/indexes.ts lines 387 to 401): POST of
the raw string payload on indexes/uid/documents, wrapped by new
EnqueuedTask. -/
def Index.addDocumentsFromString (uid : String) (documents : String)
    (task : RawEnqueuedTask) : Req String × EnqueuedTaskResult :=
  (⟨HttpMethod.post, "indexes/" ++ uid ++ "/documents", documents⟩,
    EnqueuedTask.ofRaw task)

/-- Index.updateDocumentsFromString (src/indexes.ts lines 474 to 488): PUT
of the raw string payload on indexes/uid/documents, wrapped by new
EnqueuedTask. -/
def Index.updateDocumentsFromString (uid : String) (documents : String)
    (task : RawEnqueuedTask) : Req String × EnqueuedTaskResult :=
  (⟨HttpMethod.put, "indexes/" ++ uid ++ "/documents", documents⟩,
    EnqueuedTask.ofRaw task)

/-- JavaScript Array.prototype.slice restricted to nonnegative arguments, as
called by the batching loops: documents.slice(i, i + batchSize) takes the
elements from position i up to exclusively position i + batchSize, clamped
to the array length (Nat subtraction gives the empty slice when j is not
beyond i). -/
def sliceJs (documents : List δ) (i j : Nat) : List δ :=
  (documents.drop i).take (j - i)

/-- The batching loop shared verbatim by Index.addDocumentsInBatches and
Index.updateDocumentsInBatches (src/indexes.ts lines 417 to 421 and 456 to
460): starting from index i, while i is below the array length it awaits
call on documents.slice(i, i + batchSize), pushes the result, and steps i
by batchSize. The loop of the source carries no fuel; here fuel bounds the
number of iterations and none means the loop has not finished within that
many iterations, so a result of none for every fuel is non-termination. -/
def batchCalls (call : List δ → β) (documents : List δ) (batchSize : Nat) :
    Nat → Nat → Option (List β)
  | fuel, i =>
    if i < documents.length then
      match fuel with
      | 0 => none
      | f + 1 =>
        (batchCalls call documents batchSize f (i + batchSize)).map
          (fun rest => call (sliceJs documents i (i + batchSize)) :: rest)
    else
      some []

/-- Index.addDocumentsInBatches (src/indexes.ts lines 411 to 423): runs the
batching loop from index 0, one addDocuments request per chunk, in chunk
order; server is the transport oracle giving the decoded response of each
POST. The loop body issues its request and awaits it before the next
iteration, so the list order is the issue order. A fuel of the array length
is enough whenever the batch size is positive. -/
def Index.addDocumentsInBatches (uid : String) (server : List δ → RawEnqueuedTask)
    (documents : List δ) (batchSize : Nat := 1000) :
    Option (List (Req (List δ) × EnqueuedTaskResult)) :=
  batchCalls (fun chunk => Index.addDocuments uid chunk (server chunk))
    documents batchSize documents.length 0

/-- Index.updateDocumentsInBatches (src/indexes.ts lines 450 to 462): same
loop with one updateDocuments request per chunk. -/
def Index.updateDocumentsInBatches (uid : String) (server : List δ → RawEnqueuedTask)
    (documents : List δ) (batchSize : Nat := 1000) :
    Option (List (Req (List δ) × EnqueuedTaskResult)) :=
  batchCalls (fun chunk => Index.updateDocuments uid chunk (server chunk))
    documents batchSize documents.length 0

/-- Task record returned by the task client once a wait finishes (task.ts is
outside the snapshot; only the fields the claims mention are kept). -/
structure Task where
  uid : Nat
  status : String
deriving DecidableEq

/-- WaitOptions from src/types.ts: both fields optional. -/
structure WaitOptions where
  timeOutMs : Option Nat := none
  intervalMs : Option Nat := none
deriving DecidableEq

/-- Wait options after the destructuring defaults of Index.waitForTasks and
Index.waitForTask have been applied: both fields present. -/
structure ResolvedWaitOptions where
  timeOutMs : Nat
  intervalMs : Nat
deriving DecidableEq

/-- The destructuring pattern timeOutMs = 5000, intervalMs = 50 shared by
Index.waitForTasks and Index.waitForTask (src/indexes.ts lines 261 and
278): a missing field takes its default, a given field keeps its value. -/
def resolveWaitOptions (options : WaitOptions) : ResolvedWaitOptions :=
  { timeOutMs := options.timeOutMs.getD 5000
    intervalMs := options.intervalMs.getD 50 }

/-- Modelled from the spec: TaskClient.waitForTasks of src/task.ts is not in
the repository snapshot. Per spec section 4.2 it applies waitForTask to
each uid sequentially, not concurrently, and collects results in input
order. The server world together with the polling clock is abstracted into
a state of type σ threaded through the waits: waitOne w uid performs one
complete waitForTask call started in world w and returns the observed Task
and the world at the moment that wait finished, so the wait for the next
uid begins only in that later world. -/
def TaskClient.waitForTasks (waitOne : σ → Nat → Task × σ) (w : σ) :
    List Nat → List Task × σ
  | [] => ([], w)
  | uid :: rest =>
    let r := waitOne w uid
    let rs := TaskClient.waitForTasks waitOne r.2 rest
    (r.1 :: rs.1, rs.2)

/-- World state reached after sequentially waiting on a list of uids, used
to say where in the thread the wait for a given position starts. -/
def TaskClient.worldAfter (waitOne : σ → Nat → Task × σ) (w : σ) :
    List Nat → σ
  | [] => w
  | uid :: rest => TaskClient.worldAfter waitOne (waitOne w uid).2 rest

/-- Index.waitForTasks (src/indexes.ts lines 259 to 267): applies the
destructuring defaults and hands the uid list and exactly the resolved
options to the task client. -/
def Index.waitForTasks (waitOne : ResolvedWaitOptions → σ → Nat → Task × σ)
    (w : σ) (taskUids : List Nat) (options : WaitOptions := {}) : List Task × σ :=
  TaskClient.waitForTasks (waitOne (resolveWaitOptions options)) w taskUids

/-- Index.waitForTask (src/indexes.ts lines 276 to 284): applies the
destructuring defaults and hands the uid and exactly the resolved options
to the task client. -/
def Index.waitForTask (waitOne : ResolvedWaitOptions → σ → Nat → Task × σ)
    (w : σ) (taskUid : Nat) (options : WaitOptions := {}) : Task × σ :=
  waitOne (resolveWaitOptions options) w taskUid

/-- Cached handle fields of an Index object (src/indexes.ts lines 50 to
52): primaryKey, createdAt, updatedAt, all initially possibly unset. -/
structure IndexCache where
  primaryKey : Option String := none
  createdAt : Option JsDate := none
  updatedAt : Option JsDate := none
deriving DecidableEq

/-- IndexObject as decoded from the GET indexes/uid response; the date
fields arrive as ISO-8601 strings. -/
structure IndexObjectRaw where
  uid : String
  primaryKey : Option String := none
  createdAt : String := ""
  updatedAt : String := ""
deriving DecidableEq

/-- Index.getRawInfo (src/indexes.ts lines 152 to 159): GET on indexes/uid,
then assigns this.primaryKey, this.updatedAt and this.createdAt from the
response, parsing the two dates, and returns the raw response. -/
def Index.getRawInfo (st : IndexCache) (res : IndexObjectRaw) :
    IndexObjectRaw × IndexCache :=
  (res,
    { st with
      primaryKey := res.primaryKey
      updatedAt := some ⟨res.updatedAt⟩
      createdAt := some ⟨res.createdAt⟩ })

/-- Index.fetchInfo (src/indexes.ts lines 166 to 169): awaits getRawInfo and
returns the handle, so its effect on the cache is exactly that of
getRawInfo. -/
def Index.fetchInfo (st : IndexCache) (res : IndexObjectRaw) : IndexCache :=
  (Index.getRawInfo st res).2

/-- Index.fetchPrimaryKey (src/indexes.ts lines 176 to 179): assigns
this.primaryKey from the getRawInfo result, whose await already updated the
whole cache. -/
def Index.fetchPrimaryKey (st : IndexCache) (res : IndexObjectRaw) :
    Option String × IndexCache :=
  let r := Index.getRawInfo st res
  (r.1.primaryKey, { r.2 with primaryKey := r.1.primaryKey })

/-- Every method of the Index class, one constructor per source method. -/
inductive IndexOp
  | search
  | searchGet
  | getRawInfo
  | fetchInfo
  | fetchPrimaryKey
  | update
  | delete
  | getTasks
  | getTask
  | waitForTasks
  | waitForTask
  | getStats
  | getDocuments
  | getDocument
  | addDocuments
  | addDocumentsFromString
  | addDocumentsInBatches
  | updateDocuments
  | updateDocumentsInBatches
  | updateDocumentsFromString
  | deleteDocument
  | deleteDocuments
  | deleteAllDocuments
  | getSettings
  | updateSettings
  | resetSettings
  | getPagination
  | updatePagination
  | resetPagination
  | getSynonyms
  | updateSynonyms
  | resetSynonyms
  | getStopWords
  | updateStopWords
  | resetStopWords
  | getRankingRules
  | updateRankingRules
  | resetRankingRules
  | getDistinctAttribute
  | updateDistinctAttribute
  | resetDistinctAttribute
  | getFilterableAttributes
  | updateFilterableAttributes
  | resetFilterableAttributes
  | getSortableAttributes
  | updateSortableAttributes
  | resetSortableAttributes
  | getSearchableAttributes
  | updateSearchableAttributes
  | resetSearchableAttributes
  | getDisplayedAttributes
  | updateDisplayedAttributes
  | resetDisplayedAttributes
  | getTypoTolerance
  | updateTypoTolerance
  | resetTypoTolerance
  | getFaceting
  | updateFaceting
  | resetFaceting
deriving DecidableEq

/-- Effect of each Index method on the cached handle fields, read off the
method bodies of src/indexes.ts: only getRawInfo, fetchInfo and
fetchPrimaryKey contain an assignment to this.primaryKey, this.createdAt or
this.updatedAt (lines 155 to 157 and 177); res is the decoded index info
response for those three, unused by every other method. -/
def cacheEffect (op : IndexOp) (st : IndexCache) (res : IndexObjectRaw) : IndexCache :=
  match op with
  | IndexOp.getRawInfo => (Index.getRawInfo st res).2
  | IndexOp.fetchInfo => Index.fetchInfo st res
  | IndexOp.fetchPrimaryKey => (Index.fetchPrimaryKey st res).2
  | IndexOp.search | IndexOp.searchGet => st
  | IndexOp.update | IndexOp.delete => st
  | IndexOp.getTasks | IndexOp.getTask | IndexOp.waitForTasks | IndexOp.waitForTask => st
  | IndexOp.getStats => st
  | IndexOp.getDocuments | IndexOp.getDocument => st
  | IndexOp.addDocuments | IndexOp.addDocumentsFromString
  | IndexOp.addDocumentsInBatches => st
  | IndexOp.updateDocuments | IndexOp.updateDocumentsInBatches
  | IndexOp.updateDocumentsFromString => st
  | IndexOp.deleteDocument | IndexOp.deleteDocuments | IndexOp.deleteAllDocuments => st
  | IndexOp.getSettings | IndexOp.updateSettings | IndexOp.resetSettings => st
  | IndexOp.getPagination | IndexOp.updatePagination | IndexOp.resetPagination => st
  | IndexOp.getSynonyms | IndexOp.updateSynonyms | IndexOp.resetSynonyms => st
  | IndexOp.getStopWords | IndexOp.updateStopWords | IndexOp.resetStopWords => st
  | IndexOp.getRankingRules | IndexOp.updateRankingRules
  | IndexOp.resetRankingRules => st
  | IndexOp.getDistinctAttribute | IndexOp.updateDistinctAttribute
  | IndexOp.resetDistinctAttribute => st
  | IndexOp.getFilterableAttributes | IndexOp.updateFilterableAttributes
  | IndexOp.resetFilterableAttributes => st
  | IndexOp.getSortableAttributes | IndexOp.updateSortableAttributes
  | IndexOp.resetSortableAttributes => st
  | IndexOp.getSearchableAttributes | IndexOp.updateSearchableAttributes
  | IndexOp.resetSearchableAttributes => st
  | IndexOp.getDisplayedAttributes | IndexOp.updateDisplayedAttributes
  | IndexOp.resetDisplayedAttributes => st
  | IndexOp.getTypoTolerance | IndexOp.updateTypoTolerance
  | IndexOp.resetTypoTolerance => st
  | IndexOp.getFaceting | IndexOp.updateFaceting | IndexOp.resetFaceting => st

/-- TasksQuery from src/types.ts: every field optional; the two enum-valued
filters are kept as their wire strings. -/
structure TasksQuery where
  indexUids : Option (List String) := none
  uids : Option (List Nat) := none
  types : Option (List String) := none
  statuses : Option (List String) := none
  canceledBy : Option (List Nat) := none
  beforeEnqueuedAt : Option JsDate := none
  afterEnqueuedAt : Option JsDate := none
  beforeStartedAt : Option JsDate := none
  afterStartedAt : Option JsDate := none
  beforeFinishedAt : Option JsDate := none
  afterFinishedAt : Option JsDate := none
  limit : Option Nat := none
  fromTask : Option Nat := none
deriving DecidableEq

/-- Index.getTasks (src/indexes.ts lines 238 to 240): forwards the query to
the task client with the spread of the parameters and indexUids overridden
by the one-element array holding this uid (the fromTask field carries the
query field named from in the source, a reserved word here). -/
def Index.getTasks (uid : String) (parameters : TasksQuery) : TasksQuery :=
  { parameters with indexUids := some [uid] }

/- Helper lemmas about the batching loop. -/

theorem batchCalls_fuel_zero (call : List δ → β) (documents : List δ)
    (batchSize i : Nat) :
    batchCalls call documents batchSize 0 i =
      if i < documents.length then none else some [] := by
  rw [batchCalls]

theorem batchCalls_fuel_succ (call : List δ → β) (documents : List δ)
    (batchSize f i : Nat) :
    batchCalls call documents batchSize (f + 1) i =
      if i < documents.length then
        (batchCalls call documents batchSize f (i + batchSize)).map
          (fun rest => call (sliceJs documents i (i + batchSize)) :: rest)
      else some [] := by
  rw [batchCalls]

theorem batchCalls_some (call : List δ → β) (documents : List δ)
    (batchSize : Nat) (hb : 0 < batchSize) :
    ∀ fuel i, documents.length ≤ i + fuel →
      ∃ l, batchCalls call documents batchSize fuel i = some l := by
  intro fuel
  induction fuel with
  | zero =>
    intro i h
    refine ⟨[], ?_⟩
    rw [batchCalls_fuel_zero]
    simp [Nat.not_lt.mpr (by omega : documents.length ≤ i)]
  | succ f ih =>
    intro i h
    by_cases hi : i < documents.length
    · obtain ⟨l, hl⟩ := ih (i + batchSize) (by omega)
      refine ⟨call (sliceJs documents i (i + batchSize)) :: l, ?_⟩
      rw [batchCalls_fuel_succ]
      simp [hi, hl]
    · refine ⟨[], ?_⟩
      rw [batchCalls_fuel_succ]
      simp [hi]

theorem batchCalls_length (call : List δ → β) (documents : List δ)
    (batchSize : Nat) (hb : 0 < batchSize) :
    ∀ fuel i l, batchCalls call documents batchSize fuel i = some l →
      l.length = (documents.length - i + batchSize - 1) / batchSize := by
  intro fuel
  induction fuel with
  | zero =>
    intro i l hl
    rw [batchCalls_fuel_zero] at hl
    by_cases hi : i < documents.length
    · simp [hi] at hl
    · simp [hi] at hl
      subst hl
      have h0 : documents.length - i = 0 := by omega
      simp [h0, Nat.div_eq_of_lt (by omega : batchSize - 1 < batchSize)]
  | succ f ih =>
    intro i l hl
    rw [batchCalls_fuel_succ] at hl
    by_cases hi : i < documents.length
    · simp only [hi, if_true, Option.map_eq_some'] at hl
      obtain ⟨rest, hrest, hcons⟩ := hl
      subst hcons
      have hr := ih (i + batchSize) rest hrest
      simp only [List.length_cons, hr]
      have h1 : documents.length - i + batchSize - 1 =
          (documents.length - i - 1) + batchSize := by omega
      rw [h1, Nat.add_div_right _ hb]
      by_cases hbig : i + batchSize ≤ documents.length
      · have h2 : documents.length - (i + batchSize) + batchSize - 1 =
            documents.length - i - 1 := by omega
        rw [h2]
      · have h2 : documents.length - (i + batchSize) = 0 := by omega
        have h3 : documents.length - i - 1 < batchSize := by omega
        rw [h2]
        simp [Nat.div_eq_of_lt (show batchSize - 1 < batchSize by omega),
          Nat.div_eq_of_lt h3]
    · simp [hi] at hl
      subst hl
      have h0 : documents.length - i = 0 := by omega
      simp [h0, Nat.div_eq_of_lt (by omega : batchSize - 1 < batchSize)]

theorem batchCalls_get (call : List δ → β) (documents : List δ)
    (batchSize : Nat) :
    ∀ fuel i l, batchCalls call documents batchSize fuel i = some l →
      ∀ k (hk : k < l.length),
        l.get ⟨k, hk⟩ =
          call (sliceJs documents (i + k * batchSize) (i + k * batchSize + batchSize)) := by
  intro fuel
  induction fuel with
  | zero =>
    intro i l hl k hk
    rw [batchCalls_fuel_zero] at hl
    by_cases hi : i < documents.length
    · simp [hi] at hl
    · simp [hi] at hl
      subst hl
      exact absurd hk (by simp)
  | succ f ih =>
    intro i l hl k hk
    rw [batchCalls_fuel_succ] at hl
    by_cases hi : i < documents.length
    · simp only [hi, if_true, Option.map_eq_some'] at hl
      obtain ⟨rest, hrest, hcons⟩ := hl
      subst hcons
      match k with
      | 0 => simp
      | k + 1 =>
        have hk2 : k < rest.length := by
          simpa using Nat.lt_of_succ_lt_succ hk
        have := ih (i + batchSize) rest hrest k hk2
        simp only [List.get_cons_succ]
        rw [this]
        have harith : i + batchSize + k * batchSize = i + (k + 1) * batchSize := by
          rw [Nat.succ_mul]
          omega
        rw [harith]
    · simp [hi] at hl
      subst hl
      exact absurd hk (by simp)

theorem batchCalls_none_of_zero (call : List δ → β) (documents : List δ)
    (i : Nat) (hi : i < documents.length) :
    ∀ fuel, batchCalls call documents 0 fuel i = none := by
  intro fuel
  induction fuel with
  | zero => rw [batchCalls_fuel_zero]; simp [hi]
  | succ f ih =>
    rw [batchCalls_fuel_succ]
    simp [hi, ih]

/- Helper lemmas about the sequential wait protocol. -/

theorem TaskClient.waitForTasks_nil (waitOne : σ → Nat → Task × σ) (w : σ) :
    TaskClient.waitForTasks waitOne w [] = ([], w) := rfl

theorem TaskClient.waitForTasks_cons (waitOne : σ → Nat → Task × σ) (w : σ)
    (uid : Nat) (rest : List Nat) :
    TaskClient.waitForTasks waitOne w (uid :: rest) =
      ((waitOne w uid).1 ::
          (TaskClient.waitForTasks waitOne (waitOne w uid).2 rest).1,
        (TaskClient.waitForTasks waitOne (waitOne w uid).2 rest).2) := rfl

theorem TaskClient.waitForTasks_length (waitOne : σ → Nat → Task × σ) :
    ∀ (uids : List Nat) (w : σ),
      (TaskClient.waitForTasks waitOne w uids).1.length = uids.length := by
  intro uids
  induction uids with
  | nil => intro w; rfl
  | cons uid rest ih =>
    intro w
    rw [TaskClient.waitForTasks_cons]
    simp [ih]

theorem TaskClient.waitForTasks_get? (waitOne : σ → Nat → Task × σ) :
    ∀ (uids : List Nat) (w : σ) (k : Nat) (hk : k < uids.length),
      (TaskClient.waitForTasks waitOne w uids).1.get? k =
        some (waitOne (TaskClient.worldAfter waitOne w (uids.take k))
          (uids.get ⟨k, hk⟩)).1 := by
  intro uids
  induction uids with
  | nil =>
    intro w k hk
    exact absurd hk (by simp)
  | cons uid rest ih =>
    intro w k hk
    match k with
    | 0 =>
      rw [TaskClient.waitForTasks_cons]
      simp [TaskClient.worldAfter]
    | k + 1 =>
      have hk2 : k < rest.length := Nat.lt_of_succ_lt_succ hk
      rw [TaskClient.waitForTasks_cons]
      simpa [TaskClient.worldAfter] using ih (waitOne w uid).2 k hk2

/-- C1: for every search whose filter is array shaped, Index.searchGet fails
client side with a MeiliSearchError carrying the descriptive message, and
the failure happens while the request object is built, so nothing reaches
the transport (the error branch carries no request); the POST based
Index.search forwards the same filter value unchanged in its body; for a
string valued or absent filter, searchGet does not fail. -/
theorem searchGet_rejects_array_filter (uid : String) (query : Option String)
    (options : SearchParams) :
    (∀ entries, options.filter = some (Filter.arr entries) →
      Index.searchGet uid query options =
        Except.error
          ⟨"The filter query parameter should be in string format when using searchGet"⟩) ∧
    (Index.search uid query options).body.filter = options.filter ∧
    (∀ s, options.filter = some (Filter.str s) →
      ∃ req, Index.searchGet uid query options = Except.ok req ∧
        req.body.filter = some s) ∧
    (options.filter = none →
      ∃ req, Index.searchGet uid query options = Except.ok req ∧
        req.body.filter = none) := by
  refine ⟨?_, rfl, ?_, ?_⟩
  · intro entries h
    simp [Index.searchGet, h, parseFilter]
  · intro s h
    have heq : Index.searchGet uid query options = Except.ok
        { method := HttpMethod.get
          url := "indexes/" ++ uid ++ "/search"
          body :=
            { q := effectiveQ query options.q
              offset := options.offset
              limit := options.limit
              filter := some s
              sort := options.sort.map joinComma
              facets := options.facets.map joinComma
              attributesToRetrieve := options.attributesToRetrieve.map joinComma
              attributesToCrop := options.attributesToCrop.map joinComma
              attributesToHighlight := options.attributesToHighlight.map joinComma } } := by
      simp [Index.searchGet, h, parseFilter]
    exact ⟨_, heq, rfl⟩
  · intro h
    have heq : Index.searchGet uid query options = Except.ok
        { method := HttpMethod.get
          url := "indexes/" ++ uid ++ "/search"
          body :=
            { q := effectiveQ query options.q
              offset := options.offset
              limit := options.limit
              filter := none
              sort := options.sort.map joinComma
              facets := options.facets.map joinComma
              attributesToRetrieve := options.attributesToRetrieve.map joinComma
              attributesToCrop := options.attributesToCrop.map joinComma
              attributesToHighlight := options.attributesToHighlight.map joinComma } } := by
      simp [Index.searchGet, h, parseFilter]
    exact ⟨_, heq, rfl⟩

/-- C1 witness: the array filter of the spec example is rejected with the
descriptive message and the POST body carries it unchanged; a string filter
and an absent filter pass. -/
theorem searchGet_rejects_array_filter_witness :
    (Index.searchGet "movies" (some "q")
        { filter := some (Filter.arr
            [FilterEntry.str "genre = scifi", FilterEntry.str "year > 2000"]) } =
      Except.error
        ⟨"The filter query parameter should be in string format when using searchGet"⟩) ∧
    ((Index.search "movies" (some "q")
        { filter := some (Filter.arr
            [FilterEntry.str "genre = scifi", FilterEntry.str "year > 2000"]) }).body.filter =
      some (Filter.arr
        [FilterEntry.str "genre = scifi", FilterEntry.str "year > 2000"])) ∧
    (∃ req, Index.searchGet "movies" (some "q")
        { filter := some (Filter.str "genre = scifi") } = Except.ok req ∧
      req.body.filter = some "genre = scifi") ∧
    (∃ req, Index.searchGet "movies" (some "q") {} = Except.ok req ∧
      req.body.filter = none) := by
  have h := searchGet_rejects_array_filter "movies" (some "q")
    { filter := some (Filter.arr
        [FilterEntry.str "genre = scifi", FilterEntry.str "year > 2000"]) }
  have h2 := searchGet_rejects_array_filter "movies" (some "q")
    { filter := some (Filter.str "genre = scifi") }
  have h3 := searchGet_rejects_array_filter "movies" (some "q")
    (({} : SearchParams))
  exact ⟨h.1 _ rfl, h.2.1, h2.2.2.1 _ rfl, h3.2.2.2 rfl⟩

/-- C4: every array-valued parameter of the GET requests (sort, facets,
attributesToRetrieve, attributesToCrop, attributesToHighlight of searchGet;
fields of getDocuments and getDocument) is sent as the comma-joined string
of its elements and omitted when absent, while the POST search body carries
the same parameters as native arrays unchanged. -/
theorem get_requests_comma_join_arrays (uid : String) (query : Option String)
    (options : SearchParams) (parameters : DocumentsQuery) (documentId : String)
    (docParams : Option DocumentQuery) :
    (∀ req, Index.searchGet uid query options = Except.ok req →
      req.method = HttpMethod.get ∧
      req.body.sort = options.sort.map joinComma ∧
      req.body.facets = options.facets.map joinComma ∧
      req.body.attributesToRetrieve = options.attributesToRetrieve.map joinComma ∧
      req.body.attributesToCrop = options.attributesToCrop.map joinComma ∧
      req.body.attributesToHighlight = options.attributesToHighlight.map joinComma) ∧
    ((Index.search uid query options).method = HttpMethod.post ∧
      (Index.search uid query options).body.sort = options.sort ∧
      (Index.search uid query options).body.facets = options.facets ∧
      (Index.search uid query options).body.attributesToRetrieve =
        options.attributesToRetrieve ∧
      (Index.search uid query options).body.attributesToCrop =
        options.attributesToCrop ∧
      (Index.search uid query options).body.attributesToHighlight =
        options.attributesToHighlight) ∧
    (∀ l, parameters.fields = some (Fields.arr l) →
      (Index.getDocuments uid parameters).body.fields = some (joinComma l)) ∧
    (parameters.fields = none →
      (Index.getDocuments uid parameters).body.fields = none) ∧
    (∀ p l, docParams = some p → p.fields = some (Fields.arr l) →
      (Index.getDocument uid documentId docParams).body.fields = some (joinComma l)) ∧
    (docParams = none →
      (Index.getDocument uid documentId docParams).body.fields = none) ∧
    (Index.getDocuments uid parameters).method = HttpMethod.get ∧
    (Index.getDocument uid documentId docParams).method = HttpMethod.get := by
  refine ⟨?_, ⟨rfl, rfl, rfl, rfl, rfl, rfl⟩, ?_, ?_, ?_, ?_, rfl, rfl⟩
  · intro req h
    rcases hpf : parseFilter options.filter with e | f
    · simp [Index.searchGet, hpf] at h
    · simp only [Index.searchGet, hpf, Except.ok.injEq] at h
      subst h
      exact ⟨rfl, rfl, rfl, rfl, rfl, rfl⟩
  · intro l h
    simp [Index.getDocuments, serializeFields, h]
  · intro h
    simp [Index.getDocuments, serializeFields, h]
  · intro p l hp hf
    subst hp
    simp [Index.getDocument, serializeFields, hf]
  · intro h
    subst h
    simp [Index.getDocument, serializeFields]

/-- C4 witness: concrete GET and POST requests with two-element arrays for
every parameter the claim names. -/
theorem get_requests_comma_join_arrays_witness :
    (∃ req, Index.searchGet "movies" (some "q")
        { sort := some ["year:asc", "title:desc"]
          facets := some ["genre", "year"]
          attributesToRetrieve := some ["title", "year"]
          attributesToCrop := some ["overview", "title"]
          attributesToHighlight := some ["title", "overview"] } = Except.ok req ∧
      req.body.sort = some "year:asc,title:desc" ∧
      req.body.facets = some "genre,year" ∧
      req.body.attributesToRetrieve = some "title,year" ∧
      req.body.attributesToCrop = some "overview,title" ∧
      req.body.attributesToHighlight = some "title,overview") ∧
    (Index.search "movies" (some "q")
        { sort := some ["year:asc", "title:desc"] }).body.sort =
      some ["year:asc", "title:desc"] ∧
    (Index.getDocuments "movies" { fields := some (Fields.arr ["id", "title"]) }).body.fields =
      some "id,title" ∧
    (Index.getDocument "movies" "7"
        (some { fields := some (Fields.arr ["id", "title"]) })).body.fields =
      some "id,title" := by
  have h := get_requests_comma_join_arrays "movies" (some "q")
    { sort := some ["year:asc", "title:desc"]
      facets := some ["genre", "year"]
      attributesToRetrieve := some ["title", "year"]
      attributesToCrop := some ["overview", "title"]
      attributesToHighlight := some ["title", "overview"] }
    { fields := some (Fields.arr ["id", "title"]) } "7"
    (some { fields := some (Fields.arr ["id", "title"]) })
  have h2 := get_requests_comma_join_arrays "movies" (some "q")
    { sort := some ["year:asc", "title:desc"] }
    { fields := some (Fields.arr ["id", "title"]) } "7"
    (some { fields := some (Fields.arr ["id", "title"]) })
  refine ⟨⟨_, rfl, ?_⟩, h2.2.1.2.1, h.2.2.1 _ rfl, h.2.2.2.2.1 _ _ rfl rfl⟩
  have hreq := h.1 _ rfl
  exact ⟨hreq.2.1, hreq.2.2.1, hreq.2.2.2.1, hreq.2.2.2.2.1, hreq.2.2.2.2.2⟩

/-- C2: with a positive batch size, both batch methods terminate and split
the input into ceil of length over batchSize contiguous chunks, chunk k
being the slice from k times batchSize of length at most batchSize (so
every chunk has size batchSize except a possibly smaller last one); the
result list is the trace of the loop, so entry k holds the single request
issued for chunk k, in chunk order, paired with the EnqueuedTask built from
the response of exactly that request. -/
theorem documentsInBatches_chunking {δ : Type} (uid : String)
    (serverAdd serverUpd : List δ → RawEnqueuedTask) (documents : List δ)
    (batchSize : Nat) (hb : 0 < batchSize) :
    ∃ l u, Index.addDocumentsInBatches uid serverAdd documents batchSize = some l ∧
      Index.updateDocumentsInBatches uid serverUpd documents batchSize = some u ∧
      l.length = (documents.length + batchSize - 1) / batchSize ∧
      u.length = (documents.length + batchSize - 1) / batchSize ∧
      (∀ k (hk : k < l.length), l.get ⟨k, hk⟩ =
        Index.addDocuments uid
          (sliceJs documents (k * batchSize) (k * batchSize + batchSize))
          (serverAdd (sliceJs documents (k * batchSize) (k * batchSize + batchSize)))) ∧
      (∀ k (hk : k < u.length), u.get ⟨k, hk⟩ =
        Index.updateDocuments uid
          (sliceJs documents (k * batchSize) (k * batchSize + batchSize))
          (serverUpd (sliceJs documents (k * batchSize) (k * batchSize + batchSize)))) ∧
      (∀ k (hk : k < l.length),
        ((l.get ⟨k, hk⟩).1.body).length =
          min batchSize (documents.length - k * batchSize)) := by
  obtain ⟨l, hl⟩ := batchCalls_some
    (fun chunk => Index.addDocuments uid chunk (serverAdd chunk))
    documents batchSize hb documents.length 0 (by omega)
  obtain ⟨u, hu⟩ := batchCalls_some
    (fun chunk => Index.updateDocuments uid chunk (serverUpd chunk))
    documents batchSize hb documents.length 0 (by omega)
  have hlen : l.length = (documents.length + batchSize - 1) / batchSize := by
    have := batchCalls_length _ documents batchSize hb documents.length 0 l hl
    simpa using this
  have hulen : u.length = (documents.length + batchSize - 1) / batchSize := by
    have := batchCalls_length _ documents batchSize hb documents.length 0 u hu
    simpa using this
  have hget : ∀ k (hk : k < l.length), l.get ⟨k, hk⟩ =
      Index.addDocuments uid
        (sliceJs documents (k * batchSize) (k * batchSize + batchSize))
        (serverAdd (sliceJs documents (k * batchSize) (k * batchSize + batchSize))) := by
    intro k hk
    have := batchCalls_get _ documents batchSize documents.length 0 l hl k hk
    simpa using this
  refine ⟨l, u, hl, hu, hlen, hulen, hget, ?_, ?_⟩
  · intro k hk
    have := batchCalls_get _ documents batchSize documents.length 0 u hu k hk
    simpa using this
  · intro k hk
    rw [hget k hk]
    simp [Index.addDocuments, sliceJs, Nat.add_sub_cancel_left, Nat.min_comm]

/-- C2 witness: a five-element input with batch size two yields exactly
three requests, of sizes two, two and one, in order. -/
theorem documentsInBatches_chunking_witness :
    (∃ l u,
      Index.addDocumentsInBatches "movies"
        (fun c => { taskUid := c.length, enqueuedAt := "t" }) [10, 20, 30, 40, 50] 2 =
        some l ∧
      Index.updateDocumentsInBatches "movies"
        (fun c => { taskUid := c.length, enqueuedAt := "t" }) [10, 20, 30, 40, 50] 2 =
        some u ∧
      l.length = (([10, 20, 30, 40, 50] : List Nat).length + 2 - 1) / 2 ∧
      u.length = (([10, 20, 30, 40, 50] : List Nat).length + 2 - 1) / 2 ∧
      (∀ k (hk : k < l.length), l.get ⟨k, hk⟩ =
        Index.addDocuments "movies"
          (sliceJs [10, 20, 30, 40, 50] (k * 2) (k * 2 + 2))
          ((fun c => ({ taskUid := c.length, enqueuedAt := "t" } : RawEnqueuedTask))
            (sliceJs [10, 20, 30, 40, 50] (k * 2) (k * 2 + 2)))) ∧
      (∀ k (hk : k < u.length), u.get ⟨k, hk⟩ =
        Index.updateDocuments "movies"
          (sliceJs [10, 20, 30, 40, 50] (k * 2) (k * 2 + 2))
          ((fun c => ({ taskUid := c.length, enqueuedAt := "t" } : RawEnqueuedTask))
            (sliceJs [10, 20, 30, 40, 50] (k * 2) (k * 2 + 2)))) ∧
      (∀ k (hk : k < l.length),
        ((l.get ⟨k, hk⟩).1.body).length =
          min 2 (([10, 20, 30, 40, 50] : List Nat).length - k * 2))) ∧
    Option.map (List.map fun p => p.1.body)
        (Index.addDocumentsInBatches "movies"
          (fun c => { taskUid := c.length, enqueuedAt := "t" }) [10, 20, 30, 40, 50] 2) =
      some [[10, 20], [30, 40], [50]] := by
  constructor
  · exact documentsInBatches_chunking "movies"
      (fun c => { taskUid := c.length, enqueuedAt := "t" })
      (fun c => { taskUid := c.length, enqueuedAt := "t" })
      [10, 20, 30, 40, 50] 2 (by decide)
  · rfl

/-- C9: with batch size zero the loop condition stays true at any index
below the array length because the loop index advances by zero each
iteration, so on a non-empty input no amount of fuel finishes the loop:
both batch methods diverge; the claimed precondition batchSize positive is
exactly what theorem documentsInBatches_chunking assumes for termination. -/
theorem documentsInBatches_zero_batchSize_diverges {δ : Type} (uid : String)
    (serverAdd serverUpd : List δ → RawEnqueuedTask) (documents : List δ)
    (hne : documents ≠ []) :
    (∀ fuel i, i < documents.length →
      batchCalls (fun chunk => Index.addDocuments uid chunk (serverAdd chunk))
        documents 0 fuel i = none) ∧
    (∀ fuel i, i < documents.length →
      batchCalls (fun chunk => Index.updateDocuments uid chunk (serverUpd chunk))
        documents 0 fuel i = none) ∧
    Index.addDocumentsInBatches uid serverAdd documents 0 = none ∧
    Index.updateDocumentsInBatches uid serverUpd documents 0 = none := by
  have hlen : 0 < documents.length := List.length_pos.mpr hne
  refine ⟨?_, ?_, ?_, ?_⟩
  · intro fuel i hi
    exact batchCalls_none_of_zero _ documents i hi fuel
  · intro fuel i hi
    exact batchCalls_none_of_zero _ documents i hi fuel
  · exact batchCalls_none_of_zero _ documents 0 hlen documents.length
  · exact batchCalls_none_of_zero _ documents 0 hlen documents.length

/-- C9 witness: a singleton input with batch size zero diverges. -/
theorem documentsInBatches_zero_batchSize_diverges_witness :
    Index.addDocumentsInBatches "movies"
      (fun c => { taskUid := c.length, enqueuedAt := "t" }) [10] 0 = none ∧
    Index.updateDocumentsInBatches "movies"
      (fun c => { taskUid := c.length, enqueuedAt := "t" }) [10] 0 = none := by
  have h := documentsInBatches_zero_batchSize_diverges "movies"
    (fun c => ({ taskUid := c.length, enqueuedAt := "t" } : RawEnqueuedTask))
    (fun c => ({ taskUid := c.length, enqueuedAt := "t" } : RawEnqueuedTask))
    [10] (by decide)
  exact ⟨h.2.2.1, h.2.2.2⟩

/-- C3: Index.waitForTasks waits on the uids strictly sequentially, the
wait at position k starting in the world state left behind by the completed
waits at positions 0 to k minus 1, and the result list has exactly the
length of the input and holds at position k the task observed for the uid
at position k; the statement quantifies over every waitOne oracle and every
world, hence holds regardless of the order in which the tasks reach a
terminal status server side. -/
theorem waitForTasks_sequential_in_input_order (σ : Type)
    (waitOne : ResolvedWaitOptions → σ → Nat → Task × σ) (w : σ)
    (taskUids : List Nat) (options : WaitOptions) :
    (Index.waitForTasks waitOne w taskUids options).1.length = taskUids.length ∧
    ∀ k (hk : k < taskUids.length),
      (Index.waitForTasks waitOne w taskUids options).1.get? k =
        some ((waitOne (resolveWaitOptions options))
          (TaskClient.worldAfter (waitOne (resolveWaitOptions options)) w
            (taskUids.take k))
          (taskUids.get ⟨k, hk⟩)).1 := by
  refine ⟨TaskClient.waitForTasks_length _ taskUids w, ?_⟩
  intro k hk
  exact TaskClient.waitForTasks_get? _ taskUids w k hk

/-- C3 witness: with a world counting completed waits, three uids come back
in input order, each observed in the world left by the previous waits. -/
theorem waitForTasks_sequential_in_input_order_witness :
    (Index.waitForTasks (fun _ w uid => (⟨uid, "succeeded"⟩, w + 1)) (0 : Nat)
      [5, 3, 4] {}).1.length = 3 ∧
    (Index.waitForTasks (fun _ w uid => (⟨uid, "succeeded"⟩, w + 1)) (0 : Nat)
      [5, 3, 4] {}).1.get? 1 = some ⟨3, "succeeded"⟩ := by
  have h := waitForTasks_sequential_in_input_order Nat
    (fun _ w uid => (⟨uid, "succeeded"⟩, w + 1)) 0 [5, 3, 4] {}
  refine ⟨h.1, ?_⟩
  rw [h.2 1 (by decide)]
  rfl

/-- C7: the destructuring defaults of Index.waitForTask and
Index.waitForTasks give timeOutMs 5000 and intervalMs 50 for missing
fields, keep given fields unchanged, and both methods hand exactly the
resolved pair to the underlying task client. -/
theorem wait_options_defaults (σ : Type) (options : WaitOptions) :
    (options.timeOutMs = none → (resolveWaitOptions options).timeOutMs = 5000) ∧
    (options.intervalMs = none → (resolveWaitOptions options).intervalMs = 50) ∧
    (∀ v, options.timeOutMs = some v → (resolveWaitOptions options).timeOutMs = v) ∧
    (∀ v, options.intervalMs = some v → (resolveWaitOptions options).intervalMs = v) ∧
    resolveWaitOptions {} = ⟨5000, 50⟩ ∧
    (∀ (waitOne : ResolvedWaitOptions → σ → Nat → Task × σ) (w : σ)
        (taskUids : List Nat),
      Index.waitForTasks waitOne w taskUids options =
        TaskClient.waitForTasks (waitOne (resolveWaitOptions options)) w taskUids) ∧
    (∀ (waitOne : ResolvedWaitOptions → σ → Nat → Task × σ) (w : σ) (taskUid : Nat),
      Index.waitForTask waitOne w taskUid options =
        waitOne (resolveWaitOptions options) w taskUid) := by
  refine ⟨?_, ?_, ?_, ?_, rfl, fun _ _ _ => rfl, fun _ _ _ => rfl⟩
  · intro h
    simp [resolveWaitOptions, h]
  · intro h
    simp [resolveWaitOptions, h]
  · intro v h
    simp [resolveWaitOptions, h]
  · intro v h
    simp [resolveWaitOptions, h]

/-- C7 witness: omitted fields default to 5000 and 50, given fields stay. -/
theorem wait_options_defaults_witness :
    (resolveWaitOptions {}).timeOutMs = 5000 ∧
    (resolveWaitOptions {}).intervalMs = 50 ∧
    (resolveWaitOptions { timeOutMs := some 1000 }).timeOutMs = 1000 ∧
    (resolveWaitOptions { intervalMs := some 10 }).intervalMs = 10 := by
  have h := wait_options_defaults Unit {}
  have h2 := wait_options_defaults Unit { timeOutMs := some 1000 }
  have h3 := wait_options_defaults Unit { intervalMs := some 10 }
  exact ⟨h.1 rfl, h.2.1 rfl, h2.2.2.1 1000 rfl, h3.2.2.2.1 10 rfl⟩

/-- C8: every Index operation other than getRawInfo, fetchInfo and
fetchPrimaryKey leaves the cached handle fields primaryKey, createdAt and
updatedAt unchanged, and each of those three sets all of them to the
snapshot taken from the server response. -/
theorem index_cache_frame (op : IndexOp) (st : IndexCache) (res : IndexObjectRaw) :
    (op ≠ IndexOp.getRawInfo → op ≠ IndexOp.fetchInfo → op ≠ IndexOp.fetchPrimaryKey →
      cacheEffect op st res = st) ∧
    cacheEffect IndexOp.getRawInfo st res =
      { primaryKey := res.primaryKey
        createdAt := some ⟨res.createdAt⟩
        updatedAt := some ⟨res.updatedAt⟩ } ∧
    cacheEffect IndexOp.fetchInfo st res =
      { primaryKey := res.primaryKey
        createdAt := some ⟨res.createdAt⟩
        updatedAt := some ⟨res.updatedAt⟩ } ∧
    cacheEffect IndexOp.fetchPrimaryKey st res =
      { primaryKey := res.primaryKey
        createdAt := some ⟨res.createdAt⟩
        updatedAt := some ⟨res.updatedAt⟩ } := by
  refine ⟨?_, rfl, rfl, rfl⟩
  intro h1 h2 h3
  cases op <;> first | rfl | simp_all

/-- C8 witness: a mutating operation and a read leave a concrete cache
untouched; fetchInfo overwrites it with the response snapshot. -/
theorem index_cache_frame_witness :
    cacheEffect IndexOp.updateSettings
      { primaryKey := some "id", createdAt := some ⟨"c"⟩, updatedAt := some ⟨"u"⟩ }
      { uid := "movies" } =
      { primaryKey := some "id", createdAt := some ⟨"c"⟩, updatedAt := some ⟨"u"⟩ } ∧
    cacheEffect IndexOp.search
      { primaryKey := some "id", createdAt := some ⟨"c"⟩, updatedAt := some ⟨"u"⟩ }
      { uid := "movies" } =
      { primaryKey := some "id", createdAt := some ⟨"c"⟩, updatedAt := some ⟨"u"⟩ } ∧
    cacheEffect IndexOp.fetchInfo
      { primaryKey := some "id", createdAt := some ⟨"c"⟩, updatedAt := some ⟨"u"⟩ }
      { uid := "movies", primaryKey := some "pk", createdAt := "c2", updatedAt := "u2" } =
      { primaryKey := some "pk", createdAt := some ⟨"c2"⟩, updatedAt := some ⟨"u2"⟩ } := by
  have h1 := index_cache_frame IndexOp.updateSettings
    { primaryKey := some "id", createdAt := some ⟨"c"⟩, updatedAt := some ⟨"u"⟩ }
    { uid := "movies" }
  have h2 := index_cache_frame IndexOp.search
    { primaryKey := some "id", createdAt := some ⟨"c"⟩, updatedAt := some ⟨"u"⟩ }
    { uid := "movies" }
  have h3 := index_cache_frame IndexOp.fetchInfo
    { primaryKey := some "id", createdAt := some ⟨"c"⟩, updatedAt := some ⟨"u"⟩ }
    { uid := "movies", primaryKey := some "pk", createdAt := "c2", updatedAt := "u2" }
  exact ⟨h1.1 (by decide) (by decide) (by decide),
    h2.1 (by decide) (by decide) (by decide), h3.2.2.1⟩

/-- Concrete server response used as the failing input of claim C5. -/
def c5task : RawEnqueuedTask :=
  { taskUid := 1, enqueuedAt := "2023-01-01T00:00:00.000Z" }

/-- C5 at the failing input: updateSettings hands back a task whose
enqueuedAt field is still the raw ISO-8601 string, the parsed Date having
been written to the stray enqueued property instead (src/indexes.ts line
559 assigns task.enqueued, not task.enqueuedAt), while the sibling
mutating operations parse enqueuedAt itself exactly as the claim states. -/
theorem updateSettings_enqueuedAt_left_raw :
    (Index.updateSettings "movies" () c5task).2.enqueuedAt =
      DateOrString.str "2023-01-01T00:00:00.000Z" ∧
    (Index.updateSettings "movies" () c5task).2.enqueuedAt ≠
      DateOrString.date ⟨"2023-01-01T00:00:00.000Z"⟩ ∧
    (Index.updateSettings "movies" () c5task).2.enqueued =
      some ⟨"2023-01-01T00:00:00.000Z"⟩ ∧
    (Index.update "movies" () c5task).2.enqueuedAt =
      DateOrString.date ⟨"2023-01-01T00:00:00.000Z"⟩ ∧
    (Index.deleteDocument "movies" "1" c5task).2.enqueuedAt =
      DateOrString.date ⟨"2023-01-01T00:00:00.000Z"⟩ ∧
    (Index.resetStopWords "movies" c5task).2.enqueuedAt =
      DateOrString.date ⟨"2023-01-01T00:00:00.000Z"⟩ ∧
    (Index.updateTypoTolerance "movies" () c5task).2.enqueuedAt =
      DateOrString.date ⟨"2023-01-01T00:00:00.000Z"⟩ ∧
    (Index.addDocuments "movies" ([] : List Nat) c5task).2.enqueuedAt =
      DateOrString.date ⟨"2023-01-01T00:00:00.000Z"⟩ := by
  refine ⟨rfl, ?_, rfl, rfl, rfl, rfl, rfl, rfl⟩
  decide

/-- C6: each list-valued setting update issues a PUT whose body is the
whole new value, on the settings sub-resource, and each reset issues a
DELETE on the same sub-resource path. -/
theorem list_settings_put_overwrite_delete_reset (uid : String)
    (stopWords : StopWords) (rankingRules : RankingRules) (synonyms : Synonyms)
    (filterableAttributes : FilterableAttributes)
    (sortableAttributes : SortableAttributes)
    (searchableAttributes : SearchableAttributes)
    (displayedAttributes : DisplayedAttributes) (task : RawEnqueuedTask) :
    ((Index.updateStopWords uid stopWords task).1.method = HttpMethod.put ∧
      (Index.updateStopWords uid stopWords task).1.body = stopWords ∧
      (Index.resetStopWords uid task).1.method = HttpMethod.delete ∧
      (Index.resetStopWords uid task).1.url =
        (Index.updateStopWords uid stopWords task).1.url) ∧
    ((Index.updateRankingRules uid rankingRules task).1.method = HttpMethod.put ∧
      (Index.updateRankingRules uid rankingRules task).1.body = rankingRules ∧
      (Index.resetRankingRules uid task).1.method = HttpMethod.delete ∧
      (Index.resetRankingRules uid task).1.url =
        (Index.updateRankingRules uid rankingRules task).1.url) ∧
    ((Index.updateSynonyms uid synonyms task).1.method = HttpMethod.put ∧
      (Index.updateSynonyms uid synonyms task).1.body = synonyms ∧
      (Index.resetSynonyms uid task).1.method = HttpMethod.delete ∧
      (Index.resetSynonyms uid task).1.url =
        (Index.updateSynonyms uid synonyms task).1.url) ∧
    ((Index.updateFilterableAttributes uid filterableAttributes task).1.method =
        HttpMethod.put ∧
      (Index.updateFilterableAttributes uid filterableAttributes task).1.body =
        filterableAttributes ∧
      (Index.resetFilterableAttributes uid task).1.method = HttpMethod.delete ∧
      (Index.resetFilterableAttributes uid task).1.url =
        (Index.updateFilterableAttributes uid filterableAttributes task).1.url) ∧
    ((Index.updateSortableAttributes uid sortableAttributes task).1.method =
        HttpMethod.put ∧
      (Index.updateSortableAttributes uid sortableAttributes task).1.body =
        sortableAttributes ∧
      (Index.resetSortableAttributes uid task).1.method = HttpMethod.delete ∧
      (Index.resetSortableAttributes uid task).1.url =
        (Index.updateSortableAttributes uid sortableAttributes task).1.url) ∧
    ((Index.updateSearchableAttributes uid searchableAttributes task).1.method =
        HttpMethod.put ∧
      (Index.updateSearchableAttributes uid searchableAttributes task).1.body =
        searchableAttributes ∧
      (Index.resetSearchableAttributes uid task).1.method = HttpMethod.delete ∧
      (Index.resetSearchableAttributes uid task).1.url =
        (Index.updateSearchableAttributes uid searchableAttributes task).1.url) ∧
    ((Index.updateDisplayedAttributes uid displayedAttributes task).1.method =
        HttpMethod.put ∧
      (Index.updateDisplayedAttributes uid displayedAttributes task).1.body =
        displayedAttributes ∧
      (Index.resetDisplayedAttributes uid task).1.method = HttpMethod.delete ∧
      (Index.resetDisplayedAttributes uid task).1.url =
        (Index.updateDisplayedAttributes uid displayedAttributes task).1.url) := by
  exact ⟨⟨rfl, rfl, rfl, rfl⟩, ⟨rfl, rfl, rfl, rfl⟩, ⟨rfl, rfl, rfl, rfl⟩,
    ⟨rfl, rfl, rfl, rfl⟩, ⟨rfl, rfl, rfl, rfl⟩, ⟨rfl, rfl, rfl, rfl⟩,
    ⟨rfl, rfl, rfl, rfl⟩⟩

/-- C10: Index.getTasks forwards the query to the task client with
indexUids forced to the one-element list holding this index uid, every
other field unchanged. -/
theorem getTasks_forces_own_indexUids (uid : String) (parameters : TasksQuery) :
    (Index.getTasks uid parameters).indexUids = some [uid] ∧
    (Index.getTasks uid parameters).uids = parameters.uids ∧
    (Index.getTasks uid parameters).types = parameters.types ∧
    (Index.getTasks uid parameters).statuses = parameters.statuses ∧
    (Index.getTasks uid parameters).canceledBy = parameters.canceledBy ∧
    (Index.getTasks uid parameters).beforeEnqueuedAt = parameters.beforeEnqueuedAt ∧
    (Index.getTasks uid parameters).afterEnqueuedAt = parameters.afterEnqueuedAt ∧
    (Index.getTasks uid parameters).beforeStartedAt = parameters.beforeStartedAt ∧
    (Index.getTasks uid parameters).afterStartedAt = parameters.afterStartedAt ∧
    (Index.getTasks uid parameters).beforeFinishedAt = parameters.beforeFinishedAt ∧
    (Index.getTasks uid parameters).afterFinishedAt = parameters.afterFinishedAt ∧
    (Index.getTasks uid parameters).limit = parameters.limit ∧
    (Index.getTasks uid parameters).fromTask = parameters.fromTask := by
  exact ⟨rfl, rfl, rfl, rfl, rfl, rfl, rfl, rfl, rfl, rfl, rfl, rfl, rfl⟩

end Meili
